import Mathlib

/-!
Verification development for the MCP installer's server-manager subsystem
(`src/core/server_manager.py`, `src/core/system_checker.py`,
`src/core/vscode_config.py`).

The Python code is shallowly embedded as follows.

* Exceptions (`FileNotFoundError`, `subprocess.TimeoutExpired`, other
  `Exception` subclasses, and the `UnboundLocalError` relevant to the
  `pull_cmd` scoping question) are the inductive `PyExc`; Python
  machine-level exceptions outside the `Exception` hierarchy
  (`KeyboardInterrupt`, `MemoryError`, ...) are not modelled.
* A computation is `M A = World -> PyResult A x World`: state survives a
  raised exception, as in Python, so `try/except` keeps side effects that
  happened before the raise.  `pyTry` is the translation of
  `try: ... except ...: ...`.
* `World` records the observable effects the claims talk about: the ordered
  list of subprocess command lines handed to `subprocess.run` (`trace`),
  the on-disk VS-Code extension MCP configuration files (`extFiles`, keyed
  by extension name), every invocation of the IDE configuration writer
  `add_server_to_extension` (`ideCalls`), the number of times an unassigned
  local variable was read (`unboundUses`), and the `SystemChecker.results`
  cache consulted by `get_docker_status` (`dockerCache`).
* `Env` is the outside world: the outcome `subprocess.run` would produce
  for the n-th spawned command, the platform, `os.environ`, `Path.exists`,
  `Path.home()`, and whether writing an extension config file raises.
* The logger never influences control flow in the source and is assumed
  total; it is dropped.  `mkdir`, `time.sleep` and the Windows registry
  PATH refresh are likewise dropped (no claim observes them).
* Python `str(Path(a) / b)` is rendered with the platform separator
  (`\` on Windows, `/` elsewhere).  Python `int(...)` is modelled for
  optionally signed decimal strings (the numeric-separator underscore
  syntax is not modelled).  String operations (`strip`, `split`, `lower`,
  `replace`, `in`, `startswith`, `\w`, `str.title`) are given
  kernel-computable character-list implementations, ASCII-faithful.
-/

namespace MCPInstaller

/-- The `Exception`-class outcomes a modelled Python operation can raise. -/
inductive PyExc where
  | fileNotFound (msg : String)
  | timeoutExpired (msg : String)
  | unboundLocal (varName : String)
  | other (msg : String)

/-- `str(e)` for a modelled exception. -/
def pyStr : PyExc → String
  | .fileNotFound m => m
  | .timeoutExpired m => m
  | .unboundLocal v => "local variable referenced before assignment: " ++ v
  | .other m => m

/-- Result of a completed `subprocess.run` (with `capture_output=True`). -/
structure ProcResult where
  returncode : Int
  stdout : String
  stderr : String

/-- Value or raised exception. -/
inductive PyResult (α : Type) where
  | ok (a : α)
  | exn (e : PyExc)

/-- One `mcpServers` entry as written by `vscode_config.py`. -/
structure ExtServerEntry where
  command : String
  args : List String
  env : List (String × String)

/-- The parsed content of one extension MCP configuration file:
its `mcpServers` mapping (insertion-ordered, as a Python dict). -/
structure ExtConfig where
  mcpServers : List (String × ExtServerEntry)

/-- The dict returned by `SystemChecker.check_docker` /
`get_docker_status`.  Keys that are present only in some of the returned
dicts (`daemon_running`, `installed`) are `Option`s; `.get(k, False)`
is `Option.getD _ false`. -/
structure DockerDict where
  status : Bool
  message : String
  details : String
  daemon_running : Option Bool := none
  installed : Option Bool := none

/-- Observable state threaded through a run. -/
structure World where
  trace : List (List String)
  extFiles : List (String × ExtConfig)
  ideCalls : List String
  unboundUses : Nat
  dockerCache : Option DockerDict

/-- A fresh state: no subprocess spawned, no config files, empty
`SystemChecker.results` cache. -/
def initialWorld : World :=
  { trace := [], extFiles := [], ideCalls := [], unboundUses := 0,
    dockerCache := none }

/-- The environment: everything outside the program.  `run n cmd` is what
`subprocess.run` does for the n-th spawned process when handed the argv
list `cmd` (shell/creation-flag variants spawn the same argv and are not
distinguished). -/
structure Env where
  run : Nat → List String → PyResult ProcResult
  windows : Bool
  home : String
  getenv : String → Option String
  fileExists : String → Bool
  saveFails : String → Bool

/-- A modelled Python computation. -/
def M (α : Type) : Type := World → PyResult α × World

instance : Monad M where
  pure a := fun w => (.ok a, w)
  bind x f := fun w =>
    match x w with
    | (.ok a, w1) => f a w1
    | (.exn e, w1) => (.exn e, w1)

/-- `try: x except E as e: h e` where the handler covers every modelled
exception (Python `except Exception`), possibly dispatching on its kind. -/
def pyTry {α : Type} (x : M α) (h : PyExc → M α) : M α := fun w =>
  match x w with
  | (.ok a, w1) => (.ok a, w1)
  | (.exn e, w1) => h e w1

/-- `subprocess.run(cmd, ...)`: records the command in the trace and
returns or raises according to the environment. -/
def procRun (env : Env) (cmd : List String) : M ProcResult := fun w =>
  let w1 : World := { w with trace := w.trace ++ [cmd] }
  match env.run w.trace.length cmd with
  | .ok r => (.ok r, w1)
  | .exn e => (.exn e, w1)

/-- Instrumentation: one invocation of the IDE configuration writer
`add_server_to_extension`, recording the requested extension. -/
def pushIdeCall (ext : String) : M Unit := fun w =>
  (.ok (), { w with ideCalls := w.ideCalls ++ [ext] })

/-- Read the current set of extension configuration files. -/
def getExtFiles : M (List (String × ExtConfig)) := fun w =>
  (.ok w.extFiles, w)

/-- Python dict assignment `d[k] = v`: replace in place or append. -/
def dictInsert {α : Type} (k : String) (v : α) :
    List (String × α) → List (String × α)
  | [] => [(k, v)]
  | (k2, v2) :: rest =>
    if k2 = k then (k, v) :: rest else (k2, v2) :: dictInsert k v rest

/-- Write one extension configuration file. -/
def writeExtFile (ext : String) (cfg : ExtConfig) : M Unit := fun w =>
  (.ok (), { w with extFiles := dictInsert ext cfg w.extFiles })

/-- Read the `SystemChecker.results` cache entry for "docker". -/
def getDockerCache : M (Option DockerDict) := fun w =>
  (.ok w.dockerCache, w)

/-- Reading a local variable that was never assigned: counts the event and
raises `UnboundLocalError`. -/
def recordUnbound {α : Type} (varName : String) : M α := fun w =>
  (.exn (.unboundLocal varName), { w with unboundUses := w.unboundUses + 1 })


/-- Python whitespace for `str.strip()`. -/
def pyWhitespace (c : Char) : Bool :=
  c == ' ' || c == '\t' || c == '\n' || c == '\r' || c == '\x0b' || c == '\x0c'

/-- Python `s.strip()`. -/
def pyStrip (s : String) : String :=
  String.mk (((s.data.dropWhile pyWhitespace).reverse.dropWhile pyWhitespace).reverse)

/-- `s.split(sep)` for a one-character separator. -/
def splitChar (sep : Char) : List Char → List (List Char)
  | [] => [[]]
  | c :: rest =>
    let r := splitChar sep rest
    if c == sep then [] :: r
    else
      match r with
      | [] => [[c]]
      | h :: t => (c :: h) :: t

/-- Python `s.split(sep)` for a one-character separator string. -/
def pySplitOnChar (sep : Char) (s : String) : List String :=
  (splitChar sep s.data).map String.mk

/-- Python `s.lower()` (ASCII). -/
def pyToLower (s : String) : String := String.mk (s.data.map Char.toLower)

/-- Python `s.startswith(pre)`. -/
def pyStartsWith (s pre : String) : Bool := pre.data.isPrefixOf s.data

/-- Python `s.replace(pat, rep)`: leftmost non-overlapping occurrences;
the fuel argument is an upper bound on the scan length. -/
def replaceAux (pat rep : List Char) : Nat → List Char → List Char
  | _, [] => []
  | 0, s => s
  | fuel + 1, c :: rest =>
    if pat.isPrefixOf (c :: rest) then
      rep ++ replaceAux pat rep fuel ((c :: rest).drop pat.length)
    else c :: replaceAux pat rep fuel rest

/-- Python `s.replace(pat, rep)` (for a nonempty pattern). -/
def pyReplace (s pat rep : String) : String :=
  String.mk (replaceAux pat.data rep.data s.data.length s.data)

/-- Python `pat in s` on strings. -/
def strContains (s pat : String) : Bool :=
  s.data.tails.any (fun t => pat.data.isPrefixOf t)

/-- Platform path separator, as used by `str(Path(...))`. -/
def psep (env : Env) : String := if env.windows then "\\" else "/"

/-- `str(Path(a) / b)`. -/
def pathJoin (env : Env) (a b : String) : String := a ++ psep env ++ b

/-- The nested `configuration` record of a server descriptor.  JSON has a
single `command` key whose value is a string on the npm path and an argv
list on the docker daemon path; the two shapes are modelled as separate
optional fields. -/
structure CfgConfiguration where
  commandStr : Option String := none
  commandList : Option (List String) := none
  args : Option (List String) := none
  envMap : Option (List (String × String)) := none
  run_mode : Option String := none
  ports : Option (List String) := none
  volumes : Option (List String) := none
  environment : Option (List (String × String)) := none

/-- A `fallback` record of a server descriptor (the fields the source
reads from it; `dict.update` semantics merges present keys over the
original descriptor). -/
structure FallbackCfg where
  name : Option String := none
  type : Option String := none
  package : Option String := none
  repository : Option String := none
  image : Option String := none

/-- A server descriptor, with every JSON key the source reads; a missing
key is `none` and `descriptor.get(k, d)` is `Option.getD _ d`. -/
structure ServerCfg where
  name : Option String := none
  type : Option String := none
  package : Option String := none
  repository : Option String := none
  image : Option String := none
  configuration : Option CfgConfiguration := none
  fallback : Option FallbackCfg := none

/-- `temp_config = original.copy(); temp_config.update(fallback)`:
keys present in the fallback replace the original ones. -/
def mergeFallback (orig : ServerCfg) (fb : FallbackCfg) : ServerCfg :=
  { orig with
    name := fb.name <|> orig.name,
    type := fb.type <|> orig.type,
    package := fb.package <|> orig.package,
    repository := fb.repository <|> orig.repository,
    image := fb.image <|> orig.image }

/-- The dict handed to `add_server_to_extension` (the writer reads
`name`, `command`, `args`, `env` with `.get` defaults). -/
structure VsCfg where
  name : Option String := none
  command : Option String := none
  args : Option (List String) := none
  env : Option (List (String × String)) := none

/-- `_build_local_docker_image` hands the raw server descriptor to the
writer; the descriptor shape has a `name` key but no top-level `command`,
`args` or `env` keys. -/
def vsCfgOfServer (cfg : ServerCfg) : VsCfg :=
  { name := cfg.name }

/-- `VSCodeExtensionConfig.get_extension_config`: `None` for an unknown
extension or a missing file, otherwise the parsed file. -/
def getExtensionConfig (ext : String) : M (Option ExtConfig) :=
  if ext == "cline" || ext == "roo" then do
    let files ← getExtFiles
    pure (files.lookup ext)
  else pure none

/-- `VSCodeExtensionConfig._save_extension_config`: `False` for an unknown
extension; otherwise writes the file, returning `False` (and leaving the
file untouched) when the write raises. -/
def saveExtensionConfig (env : Env) (ext : String) (cfg : ExtConfig) : M Bool :=
  if ext == "cline" || ext == "roo" then
    if env.saveFails ext then pure false
    else do
      writeExtFile ext cfg
      pure true
  else pure false

/-- `VSCodeExtensionConfig.add_server_to_extension`. -/
def addServerToExtension (env : Env) (ext : String) (server : VsCfg) : M Bool := do
  pushIdeCall ext
  let current? ← getExtensionConfig ext
  let current := current?.getD { mcpServers := [] }
  let serverName := server.name.getD "unknown"
  let entry : ExtServerEntry :=
    { command := server.command.getD "",
      args := server.args.getD [],
      env := server.env.getD [] }
  let current :=
    if ext == "cline" || ext == "roo" then
      { current with mcpServers := dictInsert serverName entry current.mcpServers }
    else current
  saveExtensionConfig env ext current

/-- `SystemChecker.check_docker`: probes `docker --version` and
`docker info` and classifies the result. -/
def checkDocker (env : Env) : M DockerDict :=
  pyTry
    (do
      let vr ← procRun env ["docker", "--version"]
      if vr.returncode != 0 then
        pure { status := false, message := "Docker not installed",
               details := "Docker is not installed. Required for Docker-based MCP servers." }
      else
        let version := pyStrip vr.stdout
        let dr ← procRun env ["docker", "info"]
        if dr.returncode == 0 then
          let infoLines := pySplitOnChar '\n' dr.stdout
          let containersLine := ((infoLines.filter (fun l => strContains l "Containers:")).headD "")
          let imagesLine := ((infoLines.filter (fun l => strContains l "Images:")).headD "")
          let detailsParts := ["Version: " ++ version]
            ++ (if containersLine != "" then [pyStrip containersLine] else [])
            ++ (if imagesLine != "" then [pyStrip imagesLine] else [])
          pure { status := true, message := "Docker installed and running",
                 details := String.intercalate ", " detailsParts,
                 daemon_running := some true }
        else
          pure { status := false, message := "Docker installed but not running",
                 details := version ++ " - Docker daemon is not running. Start Docker Desktop or Docker service.",
                 daemon_running := some false, installed := some true })
    (fun e =>
      match e with
      | .timeoutExpired _ =>
        pure { status := false, message := "Docker check timed out",
               details := "Docker command timed out. Docker may be starting or unresponsive." }
      | .fileNotFound _ =>
        pure { status := false, message := "Docker not installed",
               details := "Docker command not found. Install Docker Desktop or Docker Engine." }
      | e =>
        pure { status := false, message := "Docker check failed",
               details := "Error checking Docker: " ++ pyStr e })

/-- `SystemChecker.get_docker_status`: the cached `results["docker"]`
entry when present, otherwise a fresh `check_docker`. -/
def getDockerStatus (env : Env) : M DockerDict := do
  let c ← getDockerCache
  match c with
  | some d => pure d
  | none => checkDocker env

/-- `MCPServerManager._auto_install_nodejs`: one winget attempt, `True`
only on exit code 0; timeouts and exceptions yield `False`. -/
def autoInstallNodejs (env : Env) : M Bool :=
  pyTry
    (do
      let r ← procRun env
        ["winget", "install", "OpenJS.NodeJS", "--accept-package-agreements",
         "--accept-source-agreements"]
      if r.returncode == 0 then pure true else pure false)
    (fun _ => pure false)

/-- Result of the npm-availability gate inside `_install_npm_server`:
either go on to the install step, or return the given failure message. -/
inductive NpmGate where
  | proceed
  | failed (msg : String)

/-- The fixed extension list `_configure_server_in_vscode` walks. -/
def configureExtensionList : List String := ["cline", "roo", "claude_desktop"]

/-- The per-extension loop of `_configure_server_in_vscode`: each
`add_server_to_extension` call is wrapped in its own `try/except`. -/
def configureLoop (env : Env) (vscfg : VsCfg) : List String → M Unit
  | [] => pure ()
  | ext :: rest => do
    pyTry
      (do
        let _ ← addServerToExtension env ext vscfg
        pure ())
      (fun _ => pure ())
    configureLoop env vscfg rest

/-- `MCPServerManager._configure_server_in_vscode`. -/
def configureServerInVscode (env : Env) (cfg : ServerCfg) : M Unit :=
  pyTry
    (do
      let serverName := cfg.name.getD "Unknown"
      let serverType := cfg.type.getD ""
      let package := cfg.package.getD ""
      if serverType == "npm" && package != "" then
        let config := cfg.configuration.getD {}
        let command := config.commandStr.getD "npx"
        let args0 := config.args.getD [package]
        let args := if args0.isEmpty || !(args0.contains package)
                    then package :: args0 else args0
        let vscfg : VsCfg :=
          { name := some serverName, command := some command,
            args := some args, env := some (config.envMap.getD []) }
        configureLoop env vscfg configureExtensionList
      else pure ())
    (fun _ => pure ())

/-- `MCPServerManager._install_npm_server`. -/
def installNpmServer (env : Env) (cfg : ServerCfg) (_targetPath : Option String) :
    M (Bool × String) :=
  let package := cfg.package.getD ""
  let serverName := cfg.name.getD package
  if package == "" then pure (false, "No package specified")
  else
    pyTry
      (do
        let gate ← pyTry
          (do
            let r ← procRun env ["npm", "--version"]
            if r.returncode != 0 then
              pure (NpmGate.failed "npm is not available. Please install Node.js first.")
            else pure NpmGate.proceed)
          (fun e =>
            match e with
            | .fileNotFound _ =>
              if env.windows then do
                let ok ← autoInstallNodejs env
                if ok then
                  pyTry
                    (do
                      let r2 ← procRun env ["npm", "--version"]
                      if r2.returncode == 0 then pure NpmGate.proceed
                      else pure (NpmGate.failed "Node.js installed but npm still not working. Please restart the application."))
                    (fun _ =>
                      pure (NpmGate.failed "Node.js installed but npm still not available. Please restart the application."))
                else
                  pure (NpmGate.failed "Node.js/npm not found. Please install Node.js from https://nodejs.org/ and restart the application.")
              else
                pure (NpmGate.failed "Node.js/npm not found. Please install Node.js from https://nodejs.org/ and restart the application.")
            | e => pure (NpmGate.failed ("Cannot check npm availability: " ++ pyStr e)))
        match gate with
        | NpmGate.failed m => pure (false, m)
        | NpmGate.proceed => do
          let step ← pyTry
            (do
              let r ← procRun env ["npm", "install", "-g", package]
              pure (Sum.inl r))
            (fun e => pure (Sum.inr ("Installation error: " ++ pyStr e)))
          match step with
          | Sum.inr m => pure (false, m)
          | Sum.inl r =>
            if r.returncode == 0 then do
              configureServerInVscode env cfg
              pure (true, "Successfully installed " ++ serverName)
            else
              pure (false, "npm install failed (exit code " ++ toString r.returncode ++ "): " ++ r.stderr))
      (fun e =>
        match e with
        | .timeoutExpired _ => pure (false, "Installation timed out")
        | e => pure (false, "Installation error: " ++ pyStr e))

/-- `MCPServerManager._install_git_server`. -/
def installGitServer (env : Env) (cfg : ServerCfg) (targetPath : Option String) :
    M (Bool × String) :=
  let repository := cfg.repository.getD ""
  let serverName := cfg.name.getD "Git Server"
  if repository == "" then pure (false, "No repository URL specified")
  else
    pyTry
      (do
        let r ← procRun env ["git", "--version"]
        if r.returncode != 0 then
          pure (false, "git is not available. Please install Git first.")
        else do
          let target :=
            match targetPath with
            | none => pathJoin env (pathJoin env env.home "mcp-servers")
                        (pyToLower (pyReplace serverName " " "-"))
            | some p => p
          let cr ← procRun env ["git", "clone", repository, target]
          if cr.returncode == 0 then do
            if env.fileExists (pathJoin env target "package.json") then do
              let _ ← procRun env ["npm", "install"]
              pure ()
            else pure ()
            pure (true, "Successfully cloned " ++ serverName ++ " to " ++ target)
          else
            pure (false, "git clone failed: " ++ cr.stderr))
      (fun e =>
        match e with
        | .timeoutExpired _ => pure (false, "Git clone timed out")
        | e => pure (false, "Git installation error: " ++ pyStr e))

/-- `MCPServerManager._install_python_server`. -/
def installPythonServer (env : Env) (cfg : ServerCfg) (_targetPath : Option String) :
    M (Bool × String) :=
  let package := cfg.package.getD ""
  let repository := cfg.repository.getD ""
  pyTry
    (do
      let pc ← procRun env ["python", "--version"]
      let pythonCmd? ←
        if pc.returncode != 0 then do
          let pc3 ← procRun env ["python3", "--version"]
          if pc3.returncode != 0 then pure none
          else pure (some "python3")
        else pure (some "python")
      match pythonCmd? with
      | none => pure (false, "Python is not available. Please install Python first.")
      | some pythonCmd =>
        if package != "" then do
          let r ← procRun env [pythonCmd, "-m", "pip", "install", package]
          if r.returncode == 0 then
            pure (true, "Successfully installed Python package " ++ package)
          else
            pure (false, "pip install failed: " ++ r.stderr)
        else if repository != "" then do
          let r ← procRun env [pythonCmd, "-m", "pip", "install", "git+" ++ repository]
          if r.returncode == 0 then
            pure (true, "Successfully installed Python server from " ++ repository)
          else
            pure (false, "pip install from git failed: " ++ r.stderr)
        else
          pure (false, "No package or repository specified for Python server"))
    (fun e =>
      match e with
      | .timeoutExpired _ => pure (false, "Python installation timed out")
      | e => pure (false, "Python installation error: " ++ pyStr e))

/-- The two winget command lines `_install_docker` tries in order. -/
def wingetDockerCmds : List (List String) :=
  [["winget", "install", "Docker.DockerDesktop", "--silent",
    "--accept-package-agreements", "--accept-source-agreements"],
   ["winget", "install", "docker", "--silent",
    "--accept-package-agreements", "--accept-source-agreements"]]

/-- The per-command loop of `_install_docker`: each attempt has its own
`try/except`; nonzero exit, timeout and exceptions all mean "try the next
command". -/
def installDockerLoop (env : Env) : List (List String) → M (Bool × String)
  | [] => pure (false, "Automatic Docker installation failed. Please install Docker Desktop manually from https://docker.com/products/docker-desktop")
  | cmd :: rest => do
    let o ← pyTry
      (do
        let r ← procRun env cmd
        if r.returncode == 0 then
          pure (some (true, "Docker Desktop installed successfully. Please restart the application to complete setup."))
        else pure none)
      (fun _ => pure none)
    match o with
    | some res => pure res
    | none => installDockerLoop env rest

/-- `MCPServerManager._install_docker`. -/
def installDocker (env : Env) : M (Bool × String) :=
  pyTry
    (if env.windows then installDockerLoop env wingetDockerCmds
     else pure (false, "Automatic Docker installation not supported on this platform. Please install Docker manually."))
    (fun e => pure (false, "Docker installation failed: " ++ pyStr e))

/-- The two start command lines `_start_docker` tries in order on
Windows. -/
def startDockerCmds : List (List String) :=
  [["powershell", "-Command", "Start-Process", "\x27Docker Desktop\x27"],
   ["cmd", "/c", "start", "Docker Desktop"]]

/-- The per-command loop of `_start_docker` on Windows. -/
def startDockerLoop (env : Env) : List (List String) → M (Bool × String)
  | [] => pure (false, "Could not start Docker automatically. Please start Docker Desktop manually.")
  | cmd :: rest => do
    let o ← pyTry
      (do
        let r ← procRun env cmd
        if r.returncode == 0 then do
          let ds ← getDockerStatus env
          if ds.status then pure (some (true, "Docker started successfully"))
          else pure (some (false, "Docker was started but is not yet ready. Please wait a moment and try again."))
        else pure none)
      (fun _ => pure none)
    match o with
    | some res => pure res
    | none => startDockerLoop env rest

/-- `MCPServerManager._start_docker`. -/
def startDocker (env : Env) : M (Bool × String) :=
  pyTry
    (if env.windows then startDockerLoop env startDockerCmds
     else
      pyTry
        (do
          let r ← procRun env ["sudo", "systemctl", "start", "docker"]
          if r.returncode == 0 then pure (true, "Docker service started successfully")
          else pure (false, "Failed to start Docker service: " ++ r.stderr))
        (fun e => pure (false, "Failed to start Docker on Linux: " ++ pyStr e)))
    (fun e => pure (false, "Failed to start Docker: " ++ pyStr e))

/-- `MCPServerManager._ensure_docker_available`. -/
def ensureDockerAvailable (env : Env) : M (Bool × String) :=
  pyTry
    (do
      let ds ← getDockerStatus env
      if !(ds.installed.getD false) && pyStartsWith ds.message "Docker not" then
        installDocker env
      else if (ds.installed.getD false) && !(ds.daemon_running.getD false) then
        startDocker env
      else if ds.status then pure (true, "Docker is already available")
      else pure (false, "Unknown Docker state: " ++ ds.message))
    (fun e => pure (false, "Failed to check Docker status: " ++ pyStr e))

/-- `MCPServerManager._docker_image_exists`. -/
def dockerImageExists (env : Env) (image : String) : M Bool :=
  pyTry
    (do
      let r ← procRun env ["docker", "image", "inspect", image]
      pure (r.returncode == 0))
    (fun _ => pure false)

/-- The image-name-to-build-definition mapping of
`_build_local_docker_image`. -/
def dockerfileMap : List (String × String) :=
  [("mcp-filesystem", "Dockerfile.filesystem"),
   ("mcp-browser", "Dockerfile.playwright"),
   ("mcp-git", "Dockerfile.git"),
   ("mcp-memory", "Dockerfile.memory")]

/-- `MCPServerManager._build_local_docker_image`. -/
def buildLocalDockerImage (env : Env) (cfg : ServerCfg) (image : String) :
    M (Bool × String) :=
  let serverName := cfg.name.getD "Server"
  pyTry
    (do
      let imageName := (pySplitOnChar ':' image).headD ""
      match dockerfileMap.lookup imageName with
      | none => pure (false, "No Dockerfile found for image: " ++ imageName)
      | some dockerfile =>
        let dockerfilePath := pathJoin env "docker" dockerfile
        if !(env.fileExists dockerfilePath) then
          pure (false, "Dockerfile not found: " ++ dockerfilePath)
        else do
          let r ← procRun env
            ["docker", "build", "-f", dockerfilePath, "-t", image, "docker"]
          if r.returncode == 0 then do
            let _ ← addServerToExtension env "cline" (vsCfgOfServer cfg)
            let _ ← addServerToExtension env "roo" (vsCfgOfServer cfg)
            pure (true, "Successfully built and configured " ++ serverName)
          else
            pure (false, "Docker build failed: " ++ r.stderr))
    (fun e =>
      match e with
      | .timeoutExpired _ => pure (false, "Docker build timed out")
      | e => pure (false, "Docker build error: " ++ pyStr e))

/-- `MCPServerManager._expand_volume_path` (directory creation is not
observable and is dropped). -/
def expandVolumePath (env : Env) (volume : String) : String :=
  let volume :=
    if strContains volume "$\x7bMCP_WORKSPACE_PATH" then
      let wp := (env.getenv "MCP_WORKSPACE_PATH").getD
        (pathJoin env env.home "mcp-workspace")
      pyReplace (pyReplace volume "$\x7bMCP_WORKSPACE_PATH:-./workspace\x7d" wp)
        "$\x7bMCP_WORKSPACE_PATH\x7d" wp
    else volume
  if strContains volume "$\x7bMCP_DATA_PATH" then
    let dp := (env.getenv "MCP_DATA_PATH").getD
      (pathJoin env env.home "mcp-data")
    pyReplace (pyReplace volume "$\x7bMCP_DATA_PATH:-./data\x7d" dp)
      "$\x7bMCP_DATA_PATH\x7d" dp
  else volume

/-- `MCPServerManager._cleanup_existing_container`: a bare
`try/except: pass` around `docker stop` and `docker rm`. -/
def cleanupExistingContainer (env : Env) (containerName : String) : M Unit :=
  pyTry
    (do
      let _ ← procRun env ["docker", "stop", containerName]
      let _ ← procRun env ["docker", "rm", containerName]
      pure ())
    (fun _ => pure ())

/-- `MCPServerManager._run_docker_container`.  The Python code falls out
of the interactive/daemon branches into a shared tail that registers the
assembled launch configuration with the Cline and Roo extensions; an early
`return` inside the daemon branch is the `Sum.inr` case. -/
def runDockerContainer (env : Env) (cfg : ServerCfg) (image : String) :
    M (Bool × String) :=
  let serverName := cfg.name.getD "Server"
  pyTry
    (do
      let config := cfg.configuration.getD {}
      let runMode := config.run_mode.getD "daemon"
      let step ←
        if runMode == "interactive" then
          pure (Sum.inl
            ({ name := some serverName, command := some "docker",
               args := some ["run", "-i", "--rm", "--init", "--pull=always", image],
               env := some (config.environment.getD []) } : VsCfg))
        else do
          let containerName := "mcp-" ++ pyReplace (pyToLower serverName) " " "-"
          let ports := config.ports.getD []
          let volumes := config.volumes.getD []
          let environment := config.environment.getD []
          let runCmd := ["docker", "run", "-d", "--name", containerName]
            ++ ((ports.map (fun p => ["-p", p])).flatten)
            ++ ((volumes.map (fun v => ["-v", expandVolumePath env v])).flatten)
            ++ ((environment.map (fun kv => ["-e", kv.1 ++ "=" ++ kv.2])).flatten)
            ++ ["--restart", "unless-stopped", image]
          cleanupExistingContainer env containerName
          let r ← procRun env runCmd
          if r.returncode != 0 then
            pure (Sum.inr ((false, "Docker run failed: " ++ r.stderr) : Bool × String))
          else
            pure (Sum.inl
              ({ name := some serverName, command := some "docker",
                 args := some (["exec", "-i", containerName]
                   ++ (config.commandList.getD ["npx", "@playwright/mcp"])),
                 env := some environment } : VsCfg))
      match step with
      | Sum.inr res => pure res
      | Sum.inl vscfg => do
        let _ ← addServerToExtension env "cline" vscfg
        let _ ← addServerToExtension env "roo" vscfg
        pure (true, "Successfully configured " ++ serverName ++ " for MCP via Docker"))
    (fun e =>
      match e with
      | .timeoutExpired _ => pure (false, "Docker container start timed out")
      | e => pure (false, "Docker container error: " ++ pyStr e))

/-- `MCPServerManager._build_and_run_docker_image`. -/
def buildAndRunDockerImage (env : Env) (cfg : ServerCfg) (image : String) :
    M (Bool × String) := do
  let b ← buildLocalDockerImage env cfg image
  if !b.1 then pure b
  else runDockerContainer env cfg image

/-- The local-build naming convention test of
`_install_docker_server_impl`: `image.startswith("mcp-") and ":" in image`. -/
def isLocalBuild (image : String) : Bool :=
  pyStartsWith image "mcp-" && strContains image ":"

/-- The code of `_install_docker_server_impl` from line 595 on
(`log_command_execution(" ".join(pull_cmd), result...)` and the
`result.returncode` check).  It reads the Python locals `pull_cmd` and
`result`, which are `none` exactly on a path that reaches this point
without assigning them; such a read is an `UnboundLocalError`. -/
def joinPull (env : Env) (cfg : ServerCfg) (image : String)
    (pullCmd? : Option (List String)) (result? : Option ProcResult) :
    M (Bool × String) :=
  match pullCmd? with
  | none => recordUnbound "pull_cmd"
  | some _ =>
    match result? with
    | none => recordUnbound "result"
    | some result =>
      if result.returncode == 0 then runDockerContainer env cfg image
      else pure (false, "docker pull failed: " ++ result.stderr)

/-- Lines 562–593 of `_install_docker_server_impl`: the if/else on the
local-build naming convention.  Every `return` inside the local-build
branch is a `Sum.inr`; the remote branch assigns the Python locals
`pull_cmd` and `result` and falls through (`Sum.inl`) to the join code. -/
def dockerImageStep (env : Env) (cfg : ServerCfg) (image : String) :
    M (Sum (Option (List String) × Option ProcResult) (Bool × String)) :=
  if isLocalBuild image then do
    let ex ← dockerImageExists env image
    if ex then do
      let r ← runDockerContainer env cfg image
      pure (Sum.inr r)
    else do
      let r ← buildAndRunDockerImage env cfg image
      pure (Sum.inr r)
  else do
    let pullCmd := ["docker", "pull", image]
    let result ← procRun env pullCmd
    pure (Sum.inl (some pullCmd, some result))

/-- `MCPServerManager._install_docker_server_impl`. -/
def installDockerServerImpl (env : Env) (cfg : ServerCfg) : M (Bool × String) :=
  let image := cfg.image.getD ""
  pyTry
    (do
      let ds ← getDockerStatus env
      let gate ←
        if !ds.status then do
          let ir ← ensureDockerAvailable env
          if !ir.1 then pure (some (false, "Docker setup failed: " ++ ir.2))
          else do
            let ds2 ← getDockerStatus env
            if !ds2.status then
              pure (some (false, "Docker setup completed but Docker still not available"))
            else pure none
        else pure none
      match gate with
      | some res => pure res
      | none => do
        let branch ← dockerImageStep env cfg image
        match branch with
        | Sum.inr res => pure res
        | Sum.inl assigned => joinPull env cfg image assigned.1 assigned.2)
    (fun e =>
      match e with
      | .timeoutExpired _ => pure (false, "Docker pull timed out")
      | e => pure (false, "Docker installation error: " ++ pyStr e))

/-- `MCPServerManager._install_fallback_server`. -/
def installFallbackServer (env : Env) (orig : ServerCfg) (fb : FallbackCfg) :
    M (Bool × String) :=
  let fallbackType := fb.type.getD "unknown"
  pyTry
    (let temp := mergeFallback orig fb
     if fallbackType == "npm" then installNpmServer env temp none
     else if fallbackType == "python" then installPythonServer env temp none
     else if fallbackType == "git" then installGitServer env temp none
     else pure (false, "Unsupported fallback type: " ++ fallbackType))
    (fun e => pure (false, "Fallback installation failed: " ++ pyStr e))

/-- `MCPServerManager._install_docker_server`: the wrapper whose
`try/except` triggers the fallback when (and only when) the call to
`_install_docker_server_impl` itself raises. -/
def installDockerServer (env : Env) (cfg : ServerCfg) : M (Bool × String) :=
  let image := cfg.image.getD ""
  if image == "" then pure (false, "No Docker image specified")
  else
    let fallbackConfig := cfg.fallback
    pyTry (installDockerServerImpl env cfg)
      (fun dockerError =>
        match fallbackConfig with
        | some fb => installFallbackServer env cfg fb
        | none => pure (false, "Docker installation failed: " ++ pyStr dockerError))

/-- The `try` body of `MCPServerManager.install_server`: dispatch on the
descriptor `type`. -/
def dispatchInstall (env : Env) (cfg : ServerCfg) (targetPath : Option String) :
    M (Bool × String) :=
  let serverType := cfg.type.getD "unknown"
  if serverType == "npm" then installNpmServer env cfg targetPath
  else if serverType == "git" then installGitServer env cfg targetPath
  else if serverType == "python" then installPythonServer env cfg targetPath
  else if serverType == "docker" then installDockerServer env cfg
  else pure (false, "Unsupported server type: " ++ serverType)

/-- `MCPServerManager.install_server`: the dispatch, wrapped in the
catch-all that converts any escaped backend exception into
`(False, "Installation failed: <message>")`. -/
def installServer (env : Env) (cfg : ServerCfg) (targetPath : Option String) :
    M (Bool × String) :=
  pyTry (dispatchInstall env cfg targetPath)
    (fun e => pure (false, "Installation failed: " ++ pyStr e))

/-- The dict returned by `check_nodejs` / `_install_nodejs` (these return
exactly the keys `status`, `message`, `details`). -/
structure ProbeDict where
  status : Bool
  message : String
  details : String

/-- Decimal digits to a number, `none` on a non-digit or the empty
string. -/
def natDigits : List Char → Option Nat
  | [] => none
  | cs =>
    if cs.all Char.isDigit then
      some (cs.foldl (fun n c => n * 10 + (c.toNat - 48)) 0)
    else none

/-- Python `int(s)` for an optionally signed decimal string (surrounding
whitespace stripped; digit-group underscores are not modelled). -/
def pyInt : String → Option Int := fun s =>
  match (pyStrip s).data with
  | '+' :: rest => (natDigits rest).map Int.ofNat
  | '-' :: rest => (natDigits rest).map (fun n => -(Int.ofNat n))
  | cs => (natDigits cs).map Int.ofNat

/-- `int(version.lstrip("v").split(".")[0])` from `check_nodejs`:
`none` when Python would raise `ValueError`. -/
def parseMajor (version : String) : Option Int :=
  pyInt ((pySplitOnChar '.' (String.mk (version.data.dropWhile (fun c => c == 'v')))).headD "")

/-- The winget command lines `SystemChecker._install_nodejs` tries in
order. -/
def wingetNodeCmds : List (List String) :=
  [["winget", "install", "OpenJS.NodeJS.LTS", "--silent",
    "--accept-package-agreements", "--accept-source-agreements"],
   ["winget", "install", "OpenJS.NodeJS", "--silent",
    "--accept-package-agreements", "--accept-source-agreements"],
   ["winget", "install", "nodejs", "--silent",
    "--accept-package-agreements", "--accept-source-agreements"]]

/-- The per-command loop of `SystemChecker._install_nodejs`: after a
zero-exit winget run it re-probes `node --version` (the sleep and PATH
refresh have no modelled effect); an inaccessible or failed install moves
on to the next command. -/
def installNodejsLoop (env : Env) : List (List String) → M (Option ProbeDict)
  | [] => pure none
  | cmd :: rest => do
    let o ← pyTry
      (do
        let r ← procRun env cmd
        if r.returncode == 0 then do
          let tr ← procRun env ["node", "--version"]
          if tr.returncode == 0 then
            pure (some { status := true,
                         message := "Node.js installed successfully: " ++ pyStrip tr.stdout,
                         details := "Installed via Windows Package Manager (winget)" })
          else pure none
        else pure none)
      (fun _ => pure none)
    match o with
    | some d => pure (some d)
    | none => installNodejsLoop env rest

/-- `SystemChecker._install_nodejs`. -/
def scInstallNodejs (env : Env) : M ProbeDict :=
  pyTry
    (do
      let winGate ←
        if env.windows then do
          let wc ← procRun env ["winget", "--version"]
          if wc.returncode != 0 then
            pure (some { status := false,
                         message := "Cannot auto-install Node.js (winget not available)",
                         details := "Please install manually from https://nodejs.org (version 18 or higher)" })
          else installNodejsLoop env wingetNodeCmds
        else pure none
      match winGate with
      | some d => pure d
      | none =>
        pure { status := false, message := "Node.js auto-installation failed",
               details := "Please install manually: 1) Go to https://nodejs.org 2) Download LTS version 3) Run installer 4) Restart this application" })
    (fun e =>
      pure { status := false, message := "Node.js installation failed: " ++ pyStr e,
             details := "Please install manually from https://nodejs.org" })

/-- The loop over the command names `["node", "nodejs"]` in
`check_nodejs`: each iteration runs inside its own `try/except` whose
handlers all continue with the next command; a nonzero exit also falls
through to the next command. -/
def checkNodejsLoop (env : Env) (autoFix : Bool) : List String → M (Option ProbeDict)
  | [] => pure none
  | nodeCmd :: rest => do
    let o ← pyTry
      (do
        let r ← procRun env [nodeCmd, "--version"]
        if r.returncode == 0 then
          let version := pyStrip r.stdout
          match parseMajor version with
          | some major =>
            if major ≥ 16 then do
              let npmR ← procRun env ["npm", "--version"]
              let npmInfo := if npmR.returncode == 0 then ", npm: " ++ pyStrip npmR.stdout else ""
              pure (some { status := true,
                           message := "Node.js " ++ version ++ " is installed",
                           details := "Command: " ++ nodeCmd ++ ", Version: " ++ version ++ npmInfo })
            else if autoFix then do
              let d ← scInstallNodejs env
              pure (some d)
            else
              pure (some { status := false,
                           message := "Node.js " ++ version ++ " is too old (need v16+)",
                           details := "Current: " ++ version ++ ", Required: v16+" })
          | none =>
            pure (some { status := true,
                         message := "Node.js " ++ version ++ " detected (version parsing failed)",
                         details := "Command: " ++ nodeCmd ++ ", Raw version: " ++ version })
        else pure none)
      (fun _ => pure none)
    match o with
    | some d => pure (some d)
    | none => checkNodejsLoop env autoFix rest

/-- The common Windows installation paths `check_nodejs` probes when no
`node` command answered. -/
def nodeCommonPaths (env : Env) : List String :=
  [pathJoin env (pathJoin env ((env.getenv "PROGRAMFILES").getD "") "nodejs") "node.exe",
   pathJoin env (pathJoin env ((env.getenv "PROGRAMFILES(X86)").getD "") "nodejs") "node.exe",
   pathJoin env (pathJoin env ((env.getenv "APPDATA").getD "") "npm") "node.exe",
   pathJoin env (pathJoin env (pathJoin env ((env.getenv "LOCALAPPDATA").getD "") "nvs") "default") "node.exe"]

/-- The common-path loop of `check_nodejs`. -/
def checkNodePathsLoop (env : Env) : List String → M (Option ProbeDict)
  | [] => pure none
  | p :: rest =>
    if env.fileExists p then do
      let o ← pyTry
        (do
          let r ← procRun env [p, "--version"]
          if r.returncode == 0 then
            let version := pyStrip r.stdout
            pure (some { status := true,
                         message := "Node.js " ++ version ++ " found at " ++ p,
                         details := "Path: " ++ p ++ ", Version: " ++ version ++ " (not in PATH)" })
          else pure none)
        (fun _ => pure none)
      match o with
      | some d => pure (some d)
      | none => checkNodePathsLoop env rest
    else checkNodePathsLoop env rest

/-- `SystemChecker.check_nodejs` (`autoFix` is `self.auto_fix`). -/
def checkNodejs (env : Env) (autoFix : Bool) : M ProbeDict := do
  let o ← checkNodejsLoop env autoFix ["node", "nodejs"]
  match o with
  | some d => pure d
  | none => do
    let o2 ← if env.windows then checkNodePathsLoop env (nodeCommonPaths env) else pure none
    match o2 with
    | some d => pure d
    | none =>
      if autoFix then scInstallNodejs env
      else
        pure { status := false, message := "Node.js not found",
               details := "Node.js is not installed or not accessible. Please install from https://nodejs.org" }

/-- One repository item of the GitHub search response, with the fields
`_discover_github_servers` reads (`description` and `language` can be
JSON `null`). -/
structure RepoItem where
  name : String
  description : Option String
  clone_url : String
  stargazers_count : Int
  language : Option String

/-- One `package` object of the npm registry search response. -/
structure NpmPackageObj where
  name : Option String := none
  version : Option String := none
  description : Option String := none

/-- Outcome of one `requests.get`: a raised exception (connection error,
timeout, malformed JSON body, ...) or a response with a status code and a
successfully parsed body. -/
inductive HttpOutcome (β : Type) where
  | exn (e : PyExc)
  | resp (statusCode : Int) (body : β)

/-- The network as seen by `discover_servers`: one fetch per source. -/
structure DiscoveryEnv where
  github : HttpOutcome (List RepoItem)
  npm : HttpOutcome (List NpmPackageObj)
  official : HttpOutcome String

/-- A discovered-server dict (the union of the key sets the three
discovery helpers emit; keys a helper does not set are `none`). -/
structure SrvEntry where
  name : String
  description : String
  type : String
  package : Option String := none
  repository : Option String := none
  version : Option String := none
  category : String
  stars : Option Int := none
  language : Option (Option String) := none
  source : Option String := none

/-- Python `x or d` for an optional string (`None` and `""` are falsy). -/
def pyOrStr (x : Option String) (d : String) : String :=
  match x with
  | some s => if s == "" then d else s
  | none => d

/-- `MCPServerManager._discover_github_servers`: its whole body is inside
a `try/except` returning the accumulated list, so a fetch failure or a
non-200 status yields `[]`. -/
def discoverGithubServers : HttpOutcome (List RepoItem) → List SrvEntry
  | .exn _ => []
  | .resp statusCode body =>
    if statusCode == 200 then
      body.map (fun repo =>
        { name := repo.name,
          description := pyOrStr repo.description "No description",
          type := "git",
          repository := some repo.clone_url,
          category := "community",
          stars := some repo.stargazers_count,
          language := some repo.language,
          source := some "github" })
    else []

/-- `MCPServerManager._discover_npm_servers`. -/
def discoverNpmServers : HttpOutcome (List NpmPackageObj) → List SrvEntry
  | .exn _ => []
  | .resp statusCode body =>
    if statusCode == 200 then
      body.map (fun pkg =>
        { name := pkg.name.getD "Unknown",
          description := pkg.description.getD "No description",
          type := "npm",
          package := pkg.name,
          version := pkg.version,
          category := "npm",
          source := some "npm" })
    else []

/-- The literal the regular expression
`@modelcontextprotocol/server-(\w+)` starts with. -/
def officialLit : List Char := "@modelcontextprotocol/server-".data

/-- Maximal run of word characters (ASCII `\w`). -/
def takeWordRun : List Char → List Char × List Char
  | [] => ([], [])
  | c :: rest =>
    if c.isAlphanum || c == '_' then
      let (run, rest2) := takeWordRun rest
      (c :: run, rest2)
    else ([], c :: rest)

/-- `re.findall` for `@modelcontextprotocol/server-(\w+)`: the literal
contains no second `@` and the captured run has no `@`, so matches cannot
overlap and a one-character scan finds exactly the matches. -/
def scanOfficial : List Char → List String
  | [] => []
  | c :: rest =>
    if officialLit.isPrefixOf (c :: rest) then
      let (run, _) := takeWordRun ((c :: rest).drop officialLit.length)
      if run.isEmpty then scanOfficial rest
      else String.mk run :: scanOfficial rest
    else scanOfficial rest

/-- `set(...)` of the captured names.  Python set iteration order is
unspecified; first-occurrence order is fixed here (no claim depends on
the order). -/
def dedupFirst (l : List String) : List String :=
  l.foldl (fun acc x => if acc.contains x then acc else acc ++ [x]) []

/-- Python `str.title()` for ASCII: an alphabetic character is
uppercased after an uncased character and lowercased after a cased one. -/
def pyTitleAux : Bool → List Char → List Char
  | _, [] => []
  | prevCased, c :: rest =>
    if c.isAlpha then
      (if prevCased then c.toLower else c.toUpper) :: pyTitleAux true rest
    else c :: pyTitleAux false rest

/-- Python `str.title()`. -/
def pyTitle (s : String) : String := String.mk (pyTitleAux false s.data)

/-- `MCPServerManager._discover_official_servers`. -/
def discoverOfficialServers : HttpOutcome String → List SrvEntry
  | .exn _ => []
  | .resp statusCode text =>
    if statusCode == 200 then
      (dedupFirst (scanOfficial text.data)).map (fun packageName =>
        { name := pyTitle packageName ++ " MCP Server",
          description := "Official " ++ packageName ++ " MCP server",
          type := "npm",
          package := some ("@modelcontextprotocol/server-" ++ packageName),
          category := "official",
          source := some "official" })
    else []

/-- The mapping `discover_servers` returns: exactly the four keys
`local`, `github`, `npm`, `official`. -/
structure Discovered where
  localServers : List SrvEntry
  github : List SrvEntry
  npm : List SrvEntry
  official : List SrvEntry

/-- `MCPServerManager.discover_servers` (`localList` is
`list(self.servers.get("servers", {}).values())`).  Each helper call sits
in a `try/except` that keeps the initial `[]` on an exception; the
helpers themselves catch everything they do, so the function is total. -/
def discoverServers (denv : DiscoveryEnv) (localList : List SrvEntry) : Discovered :=
  { localServers := localList,
    github := discoverGithubServers denv.github,
    npm := discoverNpmServers denv.npm,
    official := discoverOfficialServers denv.official }

/-! ## Concrete environments and descriptors used as test inputs -/

/-- A command predicate: a `docker run` invocation (a started container). -/
def startsDockerRun (cmd : List String) : Bool := cmd.take 2 == ["docker", "run"]

/-- A command predicate: an `npm` invocation. -/
def isNpmCmd (cmd : List String) : Bool := cmd.headD "" == "npm"

/-- `m` never changes the unassigned-local-read counter. -/
def PresUnbound {α : Type} (m : M α) : Prop :=
  ∀ w : World, ((m w).2).unboundUses = w.unboundUses

/-- A host with no usable tools: every subprocess raises
`FileNotFoundError`, no files, no environment variables. -/
def envBare : Env :=
  { run := fun _ _ => .exn (.fileNotFound "command not found"),
    windows := false, home := "/home/user",
    getenv := fun _ => none, fileExists := fun _ => false,
    saveFails := fun _ => false }

/-- Subprocess behavior: docker CLI and daemon healthy, but `docker pull`
raises (for example a dropped network connection). -/
def runPullRaises : Nat → List String → PyResult ProcResult := fun _ cmd =>
  if cmd = ["docker", "--version"] then .ok ⟨0, "Docker version 24.0.0", ""⟩
  else if cmd = ["docker", "info"] then .ok ⟨0, "Containers: 2\nImages: 5", ""⟩
  else if cmd = ["docker", "pull", "mcr.microsoft.com/playwright/mcp"] then
    .exn (.other "network unreachable")
  else .exn (.fileNotFound "command not found")

/-- Docker CLI and daemon healthy, but `docker pull` raises. -/
def envPullRaises : Env := { envBare with run := runPullRaises }

/-- The docker descriptor with an npm fallback from
`test_docker_fallback.py`. -/
def browserCfg : ServerCfg :=
  { name := some "Browser Automation MCP Server", type := some "docker",
    image := some "mcr.microsoft.com/playwright/mcp",
    fallback := some { type := some "npm", package := some "@playwright/mcp" } }

/-- Subprocess behavior: only `python --version` answers (exit code 0). -/
def runPythonOnly : Nat → List String → PyResult ProcResult := fun _ cmd =>
  if cmd = ["python", "--version"] then .ok ⟨0, "Python 3.11.4", ""⟩
  else .exn (.fileNotFound "command not found")

/-- A host where only `python --version` answers. -/
def envPythonOnly : Env := { envBare with run := runPythonOnly }

/-- A python descriptor with neither `package` nor `repository`. -/
def pythonBareCfg : ServerCfg :=
  { name := some "Some Python Server", type := some "python" }

/-- Subprocess behavior: docker healthy, image `mcp-filesystem:latest`
absent locally (`docker image inspect` exits 1). -/
def runNoImage : Nat → List String → PyResult ProcResult := fun _ cmd =>
  if cmd = ["docker", "--version"] then .ok ⟨0, "Docker version 24.0.0", ""⟩
  else if cmd = ["docker", "info"] then .ok ⟨0, "Containers: 2\nImages: 5", ""⟩
  else if cmd = ["docker", "image", "inspect", "mcp-filesystem:latest"] then
    .ok ⟨1, "", "no such image"⟩
  else .exn (.fileNotFound "command not found")

/-- Docker healthy, image absent locally, and no file exists. -/
def envNoImage : Env := { envBare with run := runNoImage }

/-- The docker descriptor of the end-to-end scenario. -/
def fsDockerCfg : ServerCfg :=
  { type := some "docker", image := some "mcp-filesystem:latest" }

/-- Subprocess behavior: docker healthy, image `mcp-filesystem:latest`
present locally, container commands succeed. -/
def runImagePresent : Nat → List String → PyResult ProcResult := fun _ cmd =>
  if cmd = ["docker", "--version"] then .ok ⟨0, "Docker version 24.0.0", ""⟩
  else if cmd = ["docker", "info"] then .ok ⟨0, "Containers: 2\nImages: 5", ""⟩
  else if cmd = ["docker", "image", "inspect", "mcp-filesystem:latest"] then .ok ⟨0, "[]", ""⟩
  else if cmd.take 2 = ["docker", "stop"] then .ok ⟨1, "", "no such container"⟩
  else if cmd.take 2 = ["docker", "rm"] then .ok ⟨1, "", "no such container"⟩
  else if cmd.take 2 = ["docker", "run"] then .ok ⟨0, "abc123def456", ""⟩
  else .exn (.fileNotFound "command not found")

/-- Docker healthy, image present locally, container commands succeed. -/
def envImagePresent : Env := { envBare with run := runImagePresent }

/-- A local-build docker descriptor. -/
def fsDockerNamedCfg : ServerCfg :=
  { name := some "Filesystem Docker", type := some "docker",
    image := some "mcp-filesystem:latest" }

/-- Subprocess behavior: `npm` answers and the filesystem package
installs with exit code 0. -/
def runNpmOk : Nat → List String → PyResult ProcResult := fun _ cmd =>
  if cmd = ["npm", "--version"] then .ok ⟨0, "10.2.3", ""⟩
  else if cmd = ["npm", "install", "-g", "@modelcontextprotocol/server-filesystem"] then
    .ok ⟨0, "added 1 package", ""⟩
  else .exn (.fileNotFound "command not found")

/-- A host where `npm` works and the filesystem package installs. -/
def envNpmOk : Env := { envBare with run := runNpmOk }

/-- The npm descriptor of the end-to-end scenario. -/
def filesystemCfg : ServerCfg :=
  { name := some "Filesystem MCP Server", type := some "npm",
    package := some "@modelcontextprotocol/server-filesystem" }

/-- Subprocess behavior: `node --version` exits 0 with an unparseable
version string. -/
def runNodeOdd : Nat → List String → PyResult ProcResult := fun _ cmd =>
  if cmd = ["node", "--version"] then .ok ⟨0, "unknown\n", ""⟩
  else .exn (.fileNotFound "command not found")

/-- A host whose `node --version` reports an unparseable version. -/
def envNodeOdd : Env := { envBare with run := runNodeOdd }

/-- An unsupported-type descriptor. -/
def brewCfg : ServerCfg := { name := some "X", type := some "brew" }

/-- A sample GitHub search item. -/
def demoRepo : RepoItem :=
  { name := "mcp-server-demo", description := some "demo",
    clone_url := "https://github.com/u/mcp-server-demo.git",
    stargazers_count := 7, language := some "Python" }

/-- A sample npm registry search item. -/
def demoNpmPkg : NpmPackageObj :=
  { name := some "mcp-server-demo", version := some "1.0.0",
    description := some "demo" }

/-- All three discovery sources healthy, one repository / one package /
one README mention. -/
def denvOk : DiscoveryEnv :=
  { github := .resp 200 [demoRepo],
    npm := .resp 200 [demoNpmPkg],
    official := .resp 200 "see @modelcontextprotocol/server-filesystem here" }

/-! ## Lemmas and theorems -/

@[simp] theorem pure_apply {α : Type} (a : α) (w : World) :
    (pure a : M α) w = (.ok a, w) := rfl

@[simp] theorem bind_apply {α β : Type} (x : M α) (f : α → M β) (w : World) :
    (x >>= f) w =
      match x w with
      | (.ok a, w1) => f a w1
      | (.exn e, w1) => (.exn e, w1) := rfl

@[simp] theorem pyTry_apply {α : Type} (x : M α) (h : PyExc → M α) (w : World) :
    pyTry x h w =
      match x w with
      | (.ok a, w1) => (.ok a, w1)
      | (.exn e, w1) => h e w1 := rfl

@[simp] theorem procRun_apply (env : Env) (cmd : List String) (w : World) :
    procRun env cmd w =
      match env.run w.trace.length cmd with
      | .ok r => (.ok r, { w with trace := w.trace ++ [cmd] })
      | .exn e => (.exn e, { w with trace := w.trace ++ [cmd] }) := rfl

@[simp] theorem pushIdeCall_apply (ext : String) (w : World) :
    pushIdeCall ext w = (.ok (), { w with ideCalls := w.ideCalls ++ [ext] }) := rfl

@[simp] theorem getExtFiles_apply (w : World) :
    getExtFiles w = (.ok w.extFiles, w) := rfl

@[simp] theorem writeExtFile_apply (ext : String) (cfg : ExtConfig) (w : World) :
    writeExtFile ext cfg w =
      (.ok (), { w with extFiles := dictInsert ext cfg w.extFiles }) := rfl

@[simp] theorem getDockerCache_apply (w : World) :
    getDockerCache w = (.ok w.dockerCache, w) := rfl


/-- C1: for every server descriptor whose `type` field is not one of
`npm`, `git`, `python`, `docker`, `install_server` returns
`(False, "Unsupported server type: " + type)` and invokes no subprocess
(the final state, including the subprocess trace, is unchanged). -/
theorem claim1_unsupported_type (env : Env) (cfg : ServerCfg) (tp : Option String)
    (w : World) (t : String) (ht : cfg.type = some t)
    (h1 : t ≠ "npm") (h2 : t ≠ "git") (h3 : t ≠ "python") (h4 : t ≠ "docker") :
    installServer env cfg tp w =
      (.ok (false, "Unsupported server type: " ++ t), w) := by
  unfold installServer dispatchInstall
  simp [ht, h1, h2, h3, h4, pyTry_apply, pure_apply]

/-- Witness for C1 at the concrete type `brew`. -/
theorem claim1_witness :
    installServer envBare brewCfg none initialWorld =
      (.ok (false, "Unsupported server type: brew"), initialWorld) :=
  claim1_unsupported_type envBare brewCfg none initialWorld "brew" rfl
    (by decide) (by decide) (by decide) (by decide)

/-- C2: `install_server` is total: for every descriptor, environment and
starting state it returns a `(Bool, String)` pair; no modelled exception
escapes to the caller (the dispatcher catch-all converts any escaped
backend exception into `(False, "Installation failed: <message>")`). -/
theorem claim2_no_exception_escapes (env : Env) (cfg : ServerCfg)
    (tp : Option String) (w : World) :
    ∃ (p : Bool × String) (w2 : World),
      installServer env cfg tp w = (.ok p, w2) := by
  unfold installServer pyTry
  match h : dispatchInstall env cfg tp w with
  | (.ok a, w1) => exact ⟨a, w1, rfl⟩
  | (.exn e, w1) =>
    exact ⟨(false, "Installation failed: " ++ pyStr e), w1, rfl⟩

/-- C3: evaluation at the failing input.  Docker CLI and daemon are
healthy, `docker pull` raises, and the descriptor carries an npm
fallback; the code returns
`(False, "Docker installation error: network unreachable")` from
`_install_docker_server_impl`’s own catch-all and the npm fallback
backend is never attempted (zero `npm` commands in the trace). -/
theorem claim3_fallback_dead_at_input :
    installServer envPullRaises browserCfg none initialWorld =
      (.ok (false, "Docker installation error: network unreachable"),
       { initialWorld with trace := [["docker", "--version"], ["docker", "info"],
           ["docker", "pull", "mcr.microsoft.com/playwright/mcp"]] })
    ∧ ((installServer envPullRaises browserCfg none initialWorld).2.trace.countP isNpmCmd) = 0 :=
  ⟨rfl, rfl⟩

/-- C4 counterexample: a python descriptor with neither `package` nor
`repository`, on a host where the interpreter probe succeeds, returns the
claimed message but only after invoking the `python --version`
subprocess: the subprocess trace is nonempty, refuting "without invoking
any subprocess". -/
theorem claim4_counterexample :
    installServer envPythonOnly pythonBareCfg none initialWorld =
      (.ok (false, "No package or repository specified for Python server"),
       { initialWorld with trace := [["python", "--version"]] })
    ∧ (installServer envPythonOnly pythonBareCfg none initialWorld).2.trace ≠ [] :=
  ⟨rfl, by decide⟩

/-- C4 amended: for every python descriptor with neither `package` nor
`repository` set, when the `python --version` probe exits 0,
`install_server` returns
`(False, "No package or repository specified for Python server")` after
invoking exactly the interpreter probe subprocess and no install
subprocess. -/
theorem claim4_python_probe_then_message (env : Env) (cfg : ServerCfg)
    (tp : Option String) (w : World) (r : ProcResult)
    (ht : cfg.type = some "python")
    (hp : cfg.package.getD "" = "")
    (hr : cfg.repository.getD "" = "")
    (hrun : env.run w.trace.length ["python", "--version"] = .ok r)
    (hrc : r.returncode = 0) :
    installServer env cfg tp w =
      (.ok (false, "No package or repository specified for Python server"),
       { w with trace := w.trace ++ [["python", "--version"]] }) := by
  unfold installServer dispatchInstall installPythonServer
  simp only [ht, Option.getD_some, hp, hr]
  simp [pyTry_apply, bind_apply, procRun_apply, pure_apply, hrun, hrc]

/-- Witness for C4’s amended statement at a concrete input. -/
theorem claim4_witness :
    installServer envPythonOnly pythonBareCfg none initialWorld =
      (.ok (false, "No package or repository specified for Python server"),
       { initialWorld with trace := [["python", "--version"]] }) :=
  claim4_python_probe_then_message envPythonOnly pythonBareCfg none initialWorld
    ⟨0, "Python 3.11.4", ""⟩ rfl rfl rfl rfl rfl

/-- C5 counterexample: for `{type := docker, image := mcp-filesystem:latest}`
with Docker available, the image absent locally and no build-definition
file on disk, the result message is
`"Dockerfile not found: docker/Dockerfile.filesystem"` — not the claimed
`"No Dockerfile found for image: mcp-filesystem"` (that message is only
produced for image names missing from the Dockerfile mapping).  No
container is started. -/
theorem claim5_counterexample :
    installServer envNoImage fsDockerCfg none initialWorld =
      (.ok (false, "Dockerfile not found: docker/Dockerfile.filesystem"),
       { initialWorld with trace := [["docker", "--version"], ["docker", "info"],
           ["docker", "image", "inspect", "mcp-filesystem:latest"]] })
    ∧ ((false, "Dockerfile not found: docker/Dockerfile.filesystem") : Bool × String) ≠
        ((false, "No Dockerfile found for image: mcp-filesystem") : Bool × String)
    ∧ ((installServer envNoImage fsDockerCfg none initialWorld).2.trace.countP startsDockerRun) = 0 :=
  ⟨rfl, by decide, rfl⟩

/-- C6 counterexample: at the explicit local-build input
`mcp-filesystem:latest` — with the image either present or absent
locally — `_install_docker_server_impl` never reads `pull_cmd`
unassigned: the unassigned-read counter stays 0 (the local-build branch
returns before the `pull_cmd` use). -/
theorem claim6_counterexample :
    (installDockerServerImpl envImagePresent fsDockerNamedCfg initialWorld).2.unboundUses = 0
    ∧ (installDockerServerImpl envNoImage fsDockerNamedCfg initialWorld).2.unboundUses = 0
    ∧ isLocalBuild "mcp-filesystem:latest" = true :=
  ⟨rfl, rfl, rfl⟩

/-- C9: `discover_servers` always returns the four-key mapping whose
`local` entry is the catalog and whose other entries each depend only on
their own source’s fetch; a raised fetch or a non-200 status yields `[]`
for that source (and, by the first conjunct, leaves the other sources’
results unaffected). -/
theorem claim9_discovery_isolation (denv : DiscoveryEnv) (l : List SrvEntry) :
    discoverServers denv l =
      { localServers := l,
        github := discoverGithubServers denv.github,
        npm := discoverNpmServers denv.npm,
        official := discoverOfficialServers denv.official }
    ∧ (∀ e : PyExc, discoverGithubServers (.exn e) = [])
    ∧ (∀ (sc : Int) (b : List RepoItem), sc = 200 ∨ discoverGithubServers (.resp sc b) = [])
    ∧ (∀ e : PyExc, discoverNpmServers (.exn e) = [])
    ∧ (∀ (sc : Int) (b : List NpmPackageObj), sc = 200 ∨ discoverNpmServers (.resp sc b) = [])
    ∧ (∀ e : PyExc, discoverOfficialServers (.exn e) = [])
    ∧ (∀ (sc : Int) (b : String), sc = 200 ∨ discoverOfficialServers (.resp sc b) = []) := by
  refine ⟨rfl, fun e => rfl, fun sc b => ?_, fun e => rfl, fun sc b => ?_,
    fun e => rfl, fun sc b => ?_⟩
  · by_cases h : sc = 200
    · exact Or.inl h
    · exact Or.inr (by simp [discoverGithubServers, h])
  · by_cases h : sc = 200
    · exact Or.inl h
    · exact Or.inr (by simp [discoverNpmServers, h])
  · by_cases h : sc = 200
    · exact Or.inl h
    · exact Or.inr (by simp [discoverOfficialServers, h])

/-- C10: for every extension name other than `cline` and `roo` (in
particular `claude_desktop`), `add_server_to_extension` writes no
configuration file, leaves every extension configuration unchanged (the
final state differs only in the recorded writer invocation) and returns
`False`. -/
theorem claim10_writer_unknown_extension (env : Env) (ext : String) (server : VsCfg)
    (w : World) (h1 : ext ≠ "cline") (h2 : ext ≠ "roo") :
    addServerToExtension env ext server w =
      (.ok false, { w with ideCalls := w.ideCalls ++ [ext] }) := by
  unfold addServerToExtension getExtensionConfig saveExtensionConfig
  simp [h1, h2]

/-- Witness for C10 at the concrete extension `claude_desktop`. -/
theorem claim10_witness :
    addServerToExtension envBare "claude_desktop" { name := some "S" } initialWorld =
      (.ok false, { initialWorld with ideCalls := ["claude_desktop"] }) :=
  claim10_writer_unknown_extension envBare "claude_desktop" { name := some "S" }
    initialWorld (by decide) (by decide)


/-- Effect of one IDE-writer invocation: it never raises, never spawns a
subprocess, records exactly one writer call, and leaves the
unassigned-read counter and docker cache alone. -/
theorem addServer_effect (env : Env) (ext : String) (server : VsCfg) (w : World) :
    ∃ (b : Bool) (w2 : World),
      addServerToExtension env ext server w = (.ok b, w2)
      ∧ w2.trace = w.trace ∧ w2.ideCalls = w.ideCalls ++ [ext]
      ∧ w2.unboundUses = w.unboundUses ∧ w2.dockerCache = w.dockerCache := by
  unfold addServerToExtension getExtensionConfig saveExtensionConfig
  by_cases h : (ext == "cline" || ext == "roo") = true
  · by_cases h2 : env.saveFails ext = true
    · simp [h, h2]
    · simp [h, h2]
  · simp [h]

/-- Effect of the `_configure_server_in_vscode` loop: one writer call per
listed extension, no subprocesses, no result change. -/
theorem configureLoop_effect (env : Env) (vscfg : VsCfg) (exts : List String) (w : World) :
    ∃ w2 : World,
      configureLoop env vscfg exts w = (.ok (), w2)
      ∧ w2.trace = w.trace ∧ w2.ideCalls = w.ideCalls ++ exts
      ∧ w2.unboundUses = w.unboundUses ∧ w2.dockerCache = w.dockerCache := by
  induction exts generalizing w with
  | nil => exact ⟨w, rfl, rfl, by simp, rfl, rfl⟩
  | cons ext rest ih =>
    obtain ⟨b, w1, hadd, htr, hic, hu, hd⟩ := addServer_effect env ext vscfg w
    obtain ⟨w2, hloop, htr2, hic2, hu2, hd2⟩ := ih w1
    refine ⟨w2, ?_, by rw [htr2, htr], by rw [hic2, hic]; simp, by rw [hu2, hu], by rw [hd2, hd]⟩
    unfold configureLoop
    simp [pyTry_apply, bind_apply, pure_apply, hadd, hloop]

/-- `_configure_server_in_vscode` on the filesystem descriptor: exactly
one writer invocation per extension in the fixed list, regardless of
whether any write succeeds or fails. -/
theorem configureVscode_filesystem_effect (env : Env) (w : World) :
    ∃ w2 : World,
      configureServerInVscode env filesystemCfg w = (.ok (), w2)
      ∧ w2.trace = w.trace ∧ w2.ideCalls = w.ideCalls ++ ["cline", "roo", "claude_desktop"]
      ∧ w2.unboundUses = w.unboundUses ∧ w2.dockerCache = w.dockerCache := by
  obtain ⟨w2, hloop, htr, hic, hu, hd⟩ := configureLoop_effect env
    { name := some "Filesystem MCP Server", command := some "npx",
      args := some ["@modelcontextprotocol/server-filesystem"], env := some [] }
    configureExtensionList w
  refine ⟨w2, ?_, htr, hic, hu, hd⟩
  unfold configureServerInVscode
  simp [filesystemCfg, pyTry_apply, bind_apply, pure_apply, hloop]

/-- C7: for the descriptor
`{name: "Filesystem MCP Server", type: npm, package:
"@modelcontextprotocol/server-filesystem"}`, when the `npm --version`
probe exits 0 the install command is exactly
`["npm", "install", "-g", "@modelcontextprotocol/server-filesystem"]`;
when it exits 0 the result is
`(True, "Successfully installed Filesystem MCP Server")` and the IDE
configuration writer is invoked exactly once per extension in
`["cline", "roo", "claude_desktop"]` — for any environment, so IDE
write failures (`saveFails` arbitrary) never change the successful
result. -/
theorem claim7_npm_end_to_end (env : Env) (w : World) (r1 r2 : ProcResult)
    (hv : ∀ n, env.run n ["npm", "--version"] = .ok r1) (hv0 : r1.returncode = 0)
    (hi : ∀ n, env.run n ["npm", "install", "-g", "@modelcontextprotocol/server-filesystem"] = .ok r2)
    (hi0 : r2.returncode = 0) :
    ∃ w2 : World,
      installServer env filesystemCfg none w =
        (.ok (true, "Successfully installed Filesystem MCP Server"), w2)
      ∧ w2.trace = w.trace ++ [["npm", "--version"],
          ["npm", "install", "-g", "@modelcontextprotocol/server-filesystem"]]
      ∧ w2.ideCalls = w.ideCalls ++ ["cline", "roo", "claude_desktop"] := by
  obtain ⟨w3, hcfg, htr, hic, hu, hd⟩ := configureVscode_filesystem_effect env
    { w with trace := w.trace ++ [["npm", "--version"],
        ["npm", "install", "-g", "@modelcontextprotocol/server-filesystem"]] }
  simp only [filesystemCfg] at hcfg
  refine ⟨w3, ?_, by simp [htr], by simp [hic]⟩
  unfold installServer dispatchInstall installNpmServer
  simp [filesystemCfg, pyTry_apply, bind_apply, procRun_apply, pure_apply,
    hv, hv0, hi, hi0, hcfg]

/-- Witness for C7 on a concrete healthy-npm host. -/
theorem claim7_witness :
    ∃ w2 : World,
      installServer envNpmOk filesystemCfg none initialWorld =
        (.ok (true, "Successfully installed Filesystem MCP Server"), w2)
      ∧ w2.trace = initialWorld.trace ++ [["npm", "--version"],
          ["npm", "install", "-g", "@modelcontextprotocol/server-filesystem"]]
      ∧ w2.ideCalls = initialWorld.ideCalls ++ ["cline", "roo", "claude_desktop"] :=
  claim7_npm_end_to_end envNpmOk initialWorld ⟨0, "10.2.3", ""⟩ ⟨0, "added 1 package", ""⟩
    (fun _ => rfl) rfl (fun _ => rfl) rfl


/-- C8: in `check_nodejs`, when the `node --version` subprocess exits 0
but the reported version string cannot be parsed into a major version
number, the probe returns a successful status reporting the tool as
detected with version unknown — not a failure. -/
theorem claim8_parse_failure_detected (env : Env) (autoFix : Bool) (w : World)
    (r : ProcResult)
    (hrun : env.run w.trace.length ["node", "--version"] = .ok r)
    (hrc : r.returncode = 0)
    (hparse : parseMajor (pyStrip r.stdout) = none) :
    checkNodejs env autoFix w =
      (.ok { status := true,
             message := "Node.js " ++ pyStrip r.stdout ++ " detected (version parsing failed)",
             details := "Command: node, Raw version: " ++ pyStrip r.stdout },
       { w with trace := w.trace ++ [["node", "--version"]] }) := by
  unfold checkNodejs checkNodejsLoop
  simp [pyTry_apply, bind_apply, procRun_apply, pure_apply, hrun, hrc, hparse]

/-- Witness for C8 at the concrete unparseable version string
`"unknown"`. -/
theorem claim8_witness :
    checkNodejs envNodeOdd true initialWorld =
      (.ok { status := true,
             message := "Node.js unknown detected (version parsing failed)",
             details := "Command: node, Raw version: unknown" },
       { initialWorld with trace := [["node", "--version"]] }) :=
  claim8_parse_failure_detected envNodeOdd true initialWorld ⟨0, "unknown\n", ""⟩
    rfl rfl rfl


/-- C5 amended: for `{type: docker, image: "mcp-filesystem:latest"}` with
Docker available (version and info probes exit 0, empty status cache),
the image absent locally (`docker image inspect` exits nonzero) and no
build-definition file at `docker/Dockerfile.filesystem` (non-Windows path
rendering), installation returns
`(False, "Dockerfile not found: docker/Dockerfile.filesystem")` — the
image name being present in the Dockerfile mapping, the claimed
`"No Dockerfile found for image: mcp-filesystem"` message is not
produced — and none of the spawned commands starts a container. -/
theorem claim5_dockerfile_missing (env : Env) (w : World) (v i x : ProcResult)
    (hwin : env.windows = false)
    (hcache : w.dockerCache = none)
    (hv : ∀ n, env.run n ["docker", "--version"] = .ok v) (hv0 : v.returncode = 0)
    (hi : ∀ n, env.run n ["docker", "info"] = .ok i) (hi0 : i.returncode = 0)
    (hx : ∀ n, env.run n ["docker", "image", "inspect", "mcp-filesystem:latest"] = .ok x)
    (hx0 : x.returncode ≠ 0)
    (hfile : env.fileExists "docker/Dockerfile.filesystem" = false) :
    installServer env fsDockerCfg none w =
      (.ok (false, "Dockerfile not found: docker/Dockerfile.filesystem"),
       { w with trace := w.trace ++ [["docker", "--version"], ["docker", "info"],
           ["docker", "image", "inspect", "mcp-filesystem:latest"]] })
    ∧ ∀ c ∈ [["docker", "--version"], ["docker", "info"],
        ["docker", "image", "inspect", "mcp-filesystem:latest"]],
        startsDockerRun c = false := by
  have hloc : isLocalBuild "mcp-filesystem:latest" = true := rfl
  have hname : pySplitOnChar ':' "mcp-filesystem:latest" = ["mcp-filesystem", "latest"] := rfl
  have hmap : dockerfileMap.lookup "mcp-filesystem" = some "Dockerfile.filesystem" := rfl
  have hpj : pathJoin env "docker" "Dockerfile.filesystem" = "docker/Dockerfile.filesystem" := by
    unfold pathJoin psep
    rw [hwin]
    rfl
  constructor
  · unfold installServer dispatchInstall installDockerServer installDockerServerImpl
      dockerImageStep getDockerStatus checkDocker ensureDockerAvailable dockerImageExists
      buildAndRunDockerImage buildLocalDockerImage
    simp [fsDockerCfg, pyTry_apply, bind_apply, procRun_apply, pure_apply,
      getDockerCache_apply, hcache, hv, hv0, hi, hi0, hx, hx0, hfile,
      hloc, hname, hmap, hpj]
  · decide

/-- Witness for C5’s amended statement on a concrete host. -/
theorem claim5_witness :
    installServer envNoImage fsDockerCfg none initialWorld =
      (.ok (false, "Dockerfile not found: docker/Dockerfile.filesystem"),
       { initialWorld with trace := initialWorld.trace ++ [["docker", "--version"],
           ["docker", "info"], ["docker", "image", "inspect", "mcp-filesystem:latest"]] })
    ∧ ∀ c ∈ [["docker", "--version"], ["docker", "info"],
        ["docker", "image", "inspect", "mcp-filesystem:latest"]],
        startsDockerRun c = false :=
  claim5_dockerfile_missing envNoImage initialWorld
    ⟨0, "Docker version 24.0.0", ""⟩ ⟨0, "Containers: 2\nImages: 5", ""⟩
    ⟨1, "", "no such image"⟩ rfl rfl (fun _ => rfl) rfl (fun _ => rfl) rfl
    (fun _ => rfl) (by decide) rfl

/-! Preservation of the unassigned-local-read counter: combinators and
one lemma per function in the docker installation chain.  The only
operation that changes the counter is `recordUnbound`, reachable only
through `joinPull` applied to an unassigned local. -/

theorem presUnbound_pure {α : Type} (a : α) : PresUnbound (pure a : M α) :=
  fun _ => rfl

theorem presUnbound_bind {α β : Type} {x : M α} {f : α → M β}
    (hx : PresUnbound x) (hf : ∀ a, PresUnbound (f a)) : PresUnbound (x >>= f) := by
  intro w
  have h1 := hx w
  rw [bind_apply]
  rcases hxw : x w with ⟨r, w1⟩
  rw [hxw] at h1
  cases r with
  | ok a => exact ((hf a) w1).trans h1
  | exn e => exact h1

theorem presUnbound_pyTry {α : Type} {x : M α} {h : PyExc → M α}
    (hx : PresUnbound x) (hh : ∀ e, PresUnbound (h e)) : PresUnbound (pyTry x h) := by
  intro w
  have h1 := hx w
  rw [pyTry_apply]
  rcases hxw : x w with ⟨r, w1⟩
  rw [hxw] at h1
  cases r with
  | ok a => exact h1
  | exn e => exact ((hh e) w1).trans h1

theorem presUnbound_ite {α : Type} {c : Prop} [Decidable c] {x y : M α}
    (hx : PresUnbound x) (hy : PresUnbound y) : PresUnbound (if c then x else y) := by
  by_cases hc : c
  · rw [if_pos hc]; exact hx
  · rw [if_neg hc]; exact hy

theorem presUnbound_procRun (env : Env) (cmd : List String) :
    PresUnbound (procRun env cmd) := by
  intro w
  unfold procRun
  cases env.run w.trace.length cmd <;> rfl

theorem presUnbound_getExtFiles : PresUnbound getExtFiles := fun _ => rfl

theorem presUnbound_getDockerCache : PresUnbound getDockerCache := fun _ => rfl

theorem presUnbound_addServer (env : Env) (ext : String) (server : VsCfg) :
    PresUnbound (addServerToExtension env ext server) := by
  intro w
  obtain ⟨b, w2, heq, _, _, hu, _⟩ := addServer_effect env ext server w
  rw [heq]
  exact hu

theorem presUnbound_checkDocker (env : Env) : PresUnbound (checkDocker env) := by
  unfold checkDocker
  apply presUnbound_pyTry
  · apply presUnbound_bind (presUnbound_procRun env _)
    intro vr
    apply presUnbound_ite
    · exact presUnbound_pure _
    · apply presUnbound_bind (presUnbound_procRun env _)
      intro dr
      apply presUnbound_ite <;> exact presUnbound_pure _
  · intro e
    cases e <;> exact presUnbound_pure _

theorem presUnbound_getDockerStatus (env : Env) : PresUnbound (getDockerStatus env) := by
  unfold getDockerStatus
  apply presUnbound_bind presUnbound_getDockerCache
  intro c
  cases c with
  | some d => exact presUnbound_pure _
  | none => exact presUnbound_checkDocker env

theorem presUnbound_installDockerLoop (env : Env) (cmds : List (List String)) :
    PresUnbound (installDockerLoop env cmds) := by
  induction cmds with
  | nil => exact presUnbound_pure _
  | cons cmd rest ih =>
    unfold installDockerLoop
    apply presUnbound_bind
    · apply presUnbound_pyTry
      · apply presUnbound_bind (presUnbound_procRun env _)
        intro r
        apply presUnbound_ite <;> exact presUnbound_pure _
      · intro e
        exact presUnbound_pure _
    · intro o
      cases o with
      | some res => exact presUnbound_pure _
      | none => exact ih

theorem presUnbound_installDocker (env : Env) : PresUnbound (installDocker env) := by
  unfold installDocker
  apply presUnbound_pyTry
  · apply presUnbound_ite
    · exact presUnbound_installDockerLoop env _
    · exact presUnbound_pure _
  · intro e
    exact presUnbound_pure _

theorem presUnbound_startDockerLoop (env : Env) (cmds : List (List String)) :
    PresUnbound (startDockerLoop env cmds) := by
  induction cmds with
  | nil => exact presUnbound_pure _
  | cons cmd rest ih =>
    unfold startDockerLoop
    apply presUnbound_bind
    · apply presUnbound_pyTry
      · apply presUnbound_bind (presUnbound_procRun env _)
        intro r
        apply presUnbound_ite
        · apply presUnbound_bind (presUnbound_getDockerStatus env)
          intro ds
          apply presUnbound_ite <;> exact presUnbound_pure _
        · exact presUnbound_pure _
      · intro e
        exact presUnbound_pure _
    · intro o
      cases o with
      | some res => exact presUnbound_pure _
      | none => exact ih

theorem presUnbound_startDocker (env : Env) : PresUnbound (startDocker env) := by
  unfold startDocker
  apply presUnbound_pyTry
  · apply presUnbound_ite
    · exact presUnbound_startDockerLoop env _
    · apply presUnbound_pyTry
      · apply presUnbound_bind (presUnbound_procRun env _)
        intro r
        apply presUnbound_ite <;> exact presUnbound_pure _
      · intro e
        exact presUnbound_pure _
  · intro e
    exact presUnbound_pure _

theorem presUnbound_ensureDocker (env : Env) : PresUnbound (ensureDockerAvailable env) := by
  unfold ensureDockerAvailable
  apply presUnbound_pyTry
  · apply presUnbound_bind (presUnbound_getDockerStatus env)
    intro ds
    apply presUnbound_ite
    · exact presUnbound_installDocker env
    · apply presUnbound_ite
      · exact presUnbound_startDocker env
      · apply presUnbound_ite <;> exact presUnbound_pure _
  · intro e
    exact presUnbound_pure _

theorem presUnbound_dockerImageExists (env : Env) (image : String) :
    PresUnbound (dockerImageExists env image) := by
  unfold dockerImageExists
  apply presUnbound_pyTry
  · apply presUnbound_bind (presUnbound_procRun env _)
    intro r
    exact presUnbound_pure _
  · intro e
    exact presUnbound_pure _

theorem presUnbound_cleanup (env : Env) (containerName : String) :
    PresUnbound (cleanupExistingContainer env containerName) := by
  unfold cleanupExistingContainer
  apply presUnbound_pyTry
  · apply presUnbound_bind (presUnbound_procRun env _)
    intro r
    apply presUnbound_bind (presUnbound_procRun env _)
    intro r2
    exact presUnbound_pure _
  · intro e
    exact presUnbound_pure _

theorem presUnbound_runDocker_tail (env : Env) (cfg : ServerCfg)
    (y : Sum VsCfg (Bool × String)) :
    PresUnbound (match y with
      | Sum.inr res => (pure res : M (Bool × String))
      | Sum.inl vscfg => do
        let _ ← addServerToExtension env "cline" vscfg
        let _ ← addServerToExtension env "roo" vscfg
        pure (true, "Successfully configured " ++ cfg.name.getD "Server" ++ " for MCP via Docker")) := by
  cases y with
  | inr res => exact presUnbound_pure _
  | inl vscfg =>
    apply presUnbound_bind (presUnbound_addServer env _ _)
    intro b1
    apply presUnbound_bind (presUnbound_addServer env _ _)
    intro b2
    exact presUnbound_pure _

theorem presUnbound_runDockerContainer (env : Env) (cfg : ServerCfg) (image : String) :
    PresUnbound (runDockerContainer env cfg image) := by
  unfold runDockerContainer
  apply presUnbound_pyTry
  · dsimp only []
    apply presUnbound_ite
    · apply presUnbound_bind (presUnbound_pure _)
      intro y
      exact presUnbound_runDocker_tail env cfg y
    · apply presUnbound_bind (presUnbound_cleanup env _)
      intro u
      apply presUnbound_bind (presUnbound_procRun env _)
      intro r
      apply presUnbound_ite
      · apply presUnbound_bind (presUnbound_pure _)
        intro y
        exact presUnbound_runDocker_tail env cfg y
      · apply presUnbound_bind (presUnbound_pure _)
        intro y
        exact presUnbound_runDocker_tail env cfg y
  · intro e
    cases e <;> exact presUnbound_pure _

theorem presUnbound_buildLocalDockerImage (env : Env) (cfg : ServerCfg) (image : String) :
    PresUnbound (buildLocalDockerImage env cfg image) := by
  unfold buildLocalDockerImage
  apply presUnbound_pyTry
  · dsimp only []
    split
    · exact presUnbound_pure _
    · apply presUnbound_ite
      · exact presUnbound_pure _
      · apply presUnbound_bind (presUnbound_procRun env _)
        intro r
        apply presUnbound_ite
        · apply presUnbound_bind (presUnbound_addServer env _ _)
          intro b1
          apply presUnbound_bind (presUnbound_addServer env _ _)
          intro b2
          exact presUnbound_pure _
        · exact presUnbound_pure _
  · intro e
    cases e <;> exact presUnbound_pure _

theorem presUnbound_buildAndRun (env : Env) (cfg : ServerCfg) (image : String) :
    PresUnbound (buildAndRunDockerImage env cfg image) := by
  unfold buildAndRunDockerImage
  apply presUnbound_bind (presUnbound_buildLocalDockerImage env cfg image)
  intro b
  apply presUnbound_ite
  · exact presUnbound_pure _
  · exact presUnbound_runDockerContainer env cfg image

theorem presUnbound_joinPull_some (env : Env) (cfg : ServerCfg) (image : String)
    (pc : List String) (r : ProcResult) :
    PresUnbound (joinPull env cfg image (some pc) (some r)) := by
  unfold joinPull
  apply presUnbound_ite
  · exact presUnbound_runDockerContainer env cfg image
  · exact presUnbound_pure _

theorem dockerImageStep_inl (env : Env) (cfg : ServerCfg) (image : String)
    (w w1 : World) (assigned : Option (List String) × Option ProcResult)
    (h : dockerImageStep env cfg image w = (.ok (Sum.inl assigned), w1)) :
    ∃ pc r, assigned = (some pc, some r) := by
  unfold dockerImageStep at h
  by_cases hl : isLocalBuild image = true
  · rw [if_pos hl] at h
    rw [bind_apply] at h
    rcases hex : dockerImageExists env image w with ⟨rex, w2⟩
    rw [hex] at h
    cases rex with
    | ok ex =>
      dsimp only [] at h
      by_cases hx : ex = true
      · rw [if_pos hx] at h
        rw [bind_apply] at h
        rcases hrr : runDockerContainer env cfg image w2 with ⟨rr, w3⟩
        rw [hrr] at h
        cases rr with
        | ok a => simp at h
        | exn e => simp at h
      · rw [if_neg hx] at h
        rw [bind_apply] at h
        rcases hrr : buildAndRunDockerImage env cfg image w2 with ⟨rr, w3⟩
        rw [hrr] at h
        cases rr with
        | ok a => simp at h
        | exn e => simp at h
    | exn e => simp at h
  · rw [if_neg hl] at h
    rw [bind_apply] at h
    rcases hpr : procRun env ["docker", "pull", image] w with ⟨rr, w2⟩
    rw [hpr] at h
    cases rr with
    | ok result =>
      simp only [pure_apply] at h
      have h2 := congrArg Prod.fst h
      simp at h2
      exact ⟨["docker", "pull", image], result, h2.symm⟩
    | exn e => simp at h

theorem presUnbound_bind_produced {α β : Type} {x : M α} {f : α → M β}
    (hx : PresUnbound x)
    (hf : ∀ a w0 w1, x w0 = (.ok a, w1) → PresUnbound (f a)) :
    PresUnbound (x >>= f) := by
  intro w
  have h1 := hx w
  rw [bind_apply]
  rcases hxw : x w with ⟨r, w1⟩
  rw [hxw] at h1
  cases r with
  | ok a => exact ((hf a w w1 hxw) w1).trans h1
  | exn e => exact h1

theorem presUnbound_dockerImageStep (env : Env) (cfg : ServerCfg) (image : String) :
    PresUnbound (dockerImageStep env cfg image) := by
  unfold dockerImageStep
  apply presUnbound_ite
  · apply presUnbound_bind (presUnbound_dockerImageExists env image)
    intro ex
    apply presUnbound_ite
    · apply presUnbound_bind (presUnbound_runDockerContainer env cfg image)
      intro r
      exact presUnbound_pure _
    · apply presUnbound_bind (presUnbound_buildAndRun env cfg image)
      intro r
      exact presUnbound_pure _
  · apply presUnbound_bind (presUnbound_procRun env _)
    intro result
    exact presUnbound_pure _

theorem presUnbound_impl_gate_tail (env : Env) (cfg : ServerCfg)
    (gate : Option (Bool × String)) :
    PresUnbound (match gate with
      | some res => (pure res : M (Bool × String))
      | none =>
        dockerImageStep env cfg (cfg.image.getD "") >>= fun branch =>
          match branch with
          | Sum.inr res => pure res
          | Sum.inl assigned =>
            joinPull env cfg (cfg.image.getD "") assigned.1 assigned.2) := by
  cases gate with
  | some res => exact presUnbound_pure _
  | none =>
    apply presUnbound_bind_produced (presUnbound_dockerImageStep env cfg _)
    intro branch w0 w1 heq
    cases branch with
    | inr res => exact presUnbound_pure _
    | inl assigned =>
      obtain ⟨pc, r, ha⟩ := dockerImageStep_inl env cfg _ w0 w1 assigned heq
      rw [ha]
      exact presUnbound_joinPull_some env cfg _ pc r

/-- C6 amended (negation of the claim): for every docker descriptor and
every environment, execution of `_install_docker_server_impl` never
reaches a use of `pull_cmd` (or `result`) without the variable having
been assigned: the local-build branch returns before the join code that
uses `pull_cmd`, and the remote branch assigns both locals before falling
through, so the unassigned-local-read counter never changes. -/
theorem claim6_no_unbound_read (env : Env) (cfg : ServerCfg) (w : World) :
    ((installDockerServerImpl env cfg w).2).unboundUses = w.unboundUses := by
  have main : PresUnbound (installDockerServerImpl env cfg) := by
    unfold installDockerServerImpl
    apply presUnbound_pyTry
    · dsimp only []
      apply presUnbound_bind (presUnbound_getDockerStatus env)
      intro ds
      dsimp only []
      apply presUnbound_ite
      · apply presUnbound_bind (presUnbound_ensureDocker env)
        intro ir
        apply presUnbound_ite
        · apply presUnbound_bind (presUnbound_pure _)
          intro gate
          exact presUnbound_impl_gate_tail env cfg gate
        · apply presUnbound_bind (presUnbound_getDockerStatus env)
          intro ds2
          apply presUnbound_ite
          · apply presUnbound_bind (presUnbound_pure _)
            intro gate
            exact presUnbound_impl_gate_tail env cfg gate
          · apply presUnbound_bind (presUnbound_pure _)
            intro gate
            exact presUnbound_impl_gate_tail env cfg gate
      · apply presUnbound_bind (presUnbound_pure _)
        intro gate
        exact presUnbound_impl_gate_tail env cfg gate
    · intro e
      cases e <;> exact presUnbound_pure _
  exact main w

end MCPInstaller
